import Mathlib

set_option linter.unusedVariables false

/-! Shallow embedding of the geocoding cache and resolution pipeline of the
map-this repository, covering the scripts in map8, map9_debugging, map10,
map11 and map13_final. Coordinates and timestamps are modelled as rationals,
SQL tables as association lists in insertion order, and the external
collaborators (the md5 digest of hashlib and the HTTP geocoding services) as
explicit function parameters supplying their observable results. -/

namespace Map9

/-- A row of the `locations` table created by `create_location_database` in
map9_debugging/preprocess_locations.py (same schema in map8): columns
location_string, latitude, longitude, attempts, last_attempt, success; the
row is keyed by location_hash, kept separately. NULL coordinates are `none`. -/
structure Entry where
  location_string : String
  latitude : Option ℚ
  longitude : Option ℚ
  att : ℕ
  last_attempt : ℚ
  success : Bool
deriving Repr, DecidableEq

/-- The `locations` table: rows keyed by location_hash (PRIMARY KEY). -/
abbrev Store := List (String × Entry)

/-- SELECT on `location_hash = ?`: the first row carrying the key. -/
def lookup (store : Store) (key : String) : Option Entry :=
  match store with
  | [] => none
  | (k, e) :: rest => if k = key then some e else lookup rest key

/-- SELECT on `location_hash = ? AND success = 1`: the first row carrying the
key whose success flag is set. -/
def lookupSuccess (store : Store) (key : String) : Option Entry :=
  match store with
  | [] => none
  | (k, e) :: rest =>
    if k = key ∧ e.success = true then some e else lookupSuccess rest key

/-- INSERT OR REPLACE under the PRIMARY KEY on location_hash: replaces the
existing row for the key, or appends a fresh one. -/
def insertOrReplace (store : Store) (key : String) (e : Entry) : Store :=
  match store with
  | [] => [(key, e)]
  | (k, e0) :: rest =>
    if k = key then (key, e) :: rest else (k, e0) :: insertOrReplace rest key e

/-- `process_location` of map9_debugging/preprocess_locations.py. `md5`
stands for the hashlib digest of the location string, `geo` for
`geocoder.geocode` (the pair of optional coordinates it returns), `now` for
CURRENT_TIMESTAMP. Returns the boolean the Python function returns, the
updated store, and the number of calls issued to the geocoding client. -/
def process_location (md5 : String → String) (geo : String → Option ℚ × Option ℚ)
    (now : ℚ) (store : Store) (loc : String) : Bool × Store × ℕ :=
  let lh := md5 loc
  match lookupSuccess store lh with
  | some _ => (true, store, 0)
  | none =>
    let lat := (geo loc).1
    let lon := (geo loc).2
    let succ := lat.isSome && lon.isSome
    let n : ℕ := match lookup store lh with
      | some e => e.att + 1
      | none => 1
    (succ, insertOrReplace store lh ⟨loc, lat, lon, n, now, succ⟩, 1)

/-- `process_batch`: processes the locations of a batch sequentially,
threading the store and summing the network calls. -/
def process_batch (md5 : String → String) (geo : String → Option ℚ × Option ℚ)
    (now : ℚ) (store : Store) (locs : List String) : Store × ℕ :=
  match locs with
  | [] => (store, 0)
  | loc :: rest =>
    let r := process_location md5 geo now store loc
    let rr := process_batch md5 geo now r.2.1 rest
    (rr.1, r.2.2 + rr.2)

/-- `min_request_interval = 0.1`, the minimum spacing between geocoding
requests enforced by HereGeocoder. -/
def min_request_interval : ℚ := 1/10

/-- `HereGeocoder._rate_limit` under an idealised timing model: `last` is the
stored last_request_time, `arrival` the value of time.time() read under the
shared lock, and the result is the new last_request_time — the instant the
gate releases the caller, after sleeping the deficit when the caller came too
soon. The whole body runs while holding `rate_limit_lock`, so calls are
serialized and the state is process wide. -/
def rate_limit_release (last arrival : ℚ) : ℚ :=
  if arrival - last < min_request_interval then
    arrival + (min_request_interval - (arrival - last))
  else arrival

/-- Successive gate releases for a serialized sequence of lock acquisitions,
threading last_request_time through `rate_limit_release`. -/
def gate_releases (last : ℚ) : List ℚ → List ℚ
  | [] => []
  | a :: rest =>
    let r := rate_limit_release last a
    r :: gate_releases r rest

/-- `get_coordinates` of map9_debugging/create_map.py: selects latitude and
longitude for the row with the query's hash filtered on `success = 1`,
returning (None, None) when no such row exists. -/
def get_coordinates (md5 : String → String) (store : Store) (loc : String) :
    Option ℚ × Option ℚ :=
  match lookupSuccess store (md5 loc) with
  | some e => (e.latitude, e.longitude)
  | none => (none, none)

end Map9

namespace Map8

/-- Outcome of one underlying `self.nominatim(location_string)` call in
map8/preprocess_locations.py: a location, no match, or a raised exception. -/
inductive NominatimOutcome where
  | found (lat lon : ℚ)
  | notFound
  | raises
deriving Repr, DecidableEq

/-- Result of a Python call as seen by a decorator: a returned value or an
exception escaping the callable. -/
inductive PyResult (α : Type) where
  | ok (a : α)
  | exn
deriving Repr, DecidableEq

/-- The body of `GeocodingService.geocode` (the function the backoff
decorator wraps): its try/except catches every exception, logs the error and
returns (None, None), so no exception ever escapes to the decorator. The
boolean records whether an error was logged. -/
def geocode_body (o : NominatimOutcome) : PyResult (Option ℚ × Option ℚ) × Bool :=
  match o with
  | .found lat lon => (.ok (some lat, some lon), false)
  | .notFound => (.ok (none, none), false)
  | .raises => (.ok (none, none), true)

/-- The `backoff.on_exception` decorator with max_tries: re-invokes the
wrapped callable while it raises, up to the given fuel; returns the final
result, the number of tries consumed, and whether any error was logged. -/
def backoff_run (f : ℕ → PyResult (Option ℚ × Option ℚ) × Bool) :
    ℕ → ℕ → Bool → PyResult (Option ℚ × Option ℚ) × ℕ × Bool
  | 0, tries, logged => (.exn, tries, logged)
  | fuel + 1, tries, logged =>
    match f tries with
    | (.ok a, lg) => (.ok a, tries + 1, logged || lg)
    | (.exn, lg) => backoff_run f fuel (tries + 1) (logged || lg)

/-- `GeocodingService.geocode`: the decorated callable with max_tries = 5,
`os n` being the outcome of the n-th underlying nominatim call. -/
def geocode (os : ℕ → NominatimOutcome) : PyResult (Option ℚ × Option ℚ) × ℕ × Bool :=
  backoff_run (fun n => geocode_body (os n)) 5 0 false

/-- `get_cached_coordinates` of map8/crime_data_with_cache.py: selects
latitude and longitude for the row with the query's hash, with no filter on
the success flag; a matching row is returned as stored (a failed row yields
its stored NULL coordinates), and (None, None) is returned when no row
exists. The embedding is a total function: the Python body cannot raise
toward the caller. -/
def get_cached_coordinates (md5 : String → String) (store : Map9.Store)
    (loc : String) : Option ℚ × Option ℚ :=
  match Map9.lookup store (md5 loc) with
  | some e => (e.latitude, e.longitude)
  | none => (none, none)

end Map8

namespace Map10

/-- A row of the `geocoded_locations` table of map10/preprocessing.py (the
same schema serves preprocessing2.py and map11/preprocessing.py):
location_query is UNIQUE, latitude and longitude are NOT NULL. -/
structure Row where
  location_query : String
  latitude : ℚ
  longitude : ℚ
deriving Repr, DecidableEq

/-- The `geocoded_locations` table in insertion order. -/
abbrev Store := List Row

/-- `get_cached_lat_long`: the stored pair of the first row matching the
query, else (None, None). -/
def get_cached_lat_long (store : Store) (q : String) : Option ℚ × Option ℚ :=
  match store with
  | [] => (none, none)
  | r :: rest =>
    if r.location_query = q then (some r.latitude, some r.longitude)
    else get_cached_lat_long rest q

/-- `cache_lat_long`: INSERT OR IGNORE under the UNIQUE constraint on
location_query — a no-op when a row for the query already exists, otherwise
an insert. -/
def cache_lat_long (store : Store) (q : String) (lat lon : ℚ) : Store :=
  if store.any (fun r => r.location_query = q) then store
  else store ++ [⟨q, lat, lon⟩]

/-- Outcome of one OpenCage HTTP request inside `geocode_location`: a
response whose results list is nonempty, one whose results list is empty, or
any raised exception (raise_for_status, network failure, malformed JSON). -/
inductive ApiOutcome where
  | results (lat lon : ℚ)
  | empty
  | raises
deriving Repr, DecidableEq

/-- `geocode_location` of map10/preprocessing.py: checks the cache first and
returns a hit directly; otherwise issues one API call, caching and returning
its coordinates on success and returning (None, None) on an empty result or
an exception. Also returns the updated store and the number of API calls. -/
def geocode_location (api : ApiOutcome) (store : Store) (q : String) :
    (Option ℚ × Option ℚ) × Store × ℕ :=
  match get_cached_lat_long store q with
  | (some lat, some lon) => ((some lat, some lon), store, 0)
  | _ =>
    match api with
    | .results lat lon => ((some lat, some lon), cache_lat_long store q lat lon, 1)
    | .empty => ((none, none), store, 1)
    | .raises => ((none, none), store, 1)

/-- `fillna` on a text field: a missing value becomes the empty string. -/
def fillna (x : Option String) : String := x.getD ""

/-- The location_query column built by `preprocess_data` in
map10/preprocessing.py, map10/preprocessing2.py and map11/preprocessing.py:
the three fields, each with missing values replaced by the empty string, are
joined unconditionally with a comma-space separator and the fixed country
suffix, whether or not a field is empty. -/
def location_query_of (station district state : Option String) : String :=
  fillna station ++ ", " ++ fillna district ++ ", " ++ fillna state ++ ", India"

/-- Joining a list of strings with a comma-space separator. -/
def joinCommaSep : List String → String
  | [] => ""
  | [x] => x
  | x :: y :: rest => x ++ ", " ++ joinCommaSep (y :: rest)

/-- Modelled from the spec: the canonical query string the claim describes —
the join of only the non-empty fields with a comma-space separator, followed
by the fixed country suffix. This comparator follows the spec wording (no
source function builds queries this way) and exists only to be compared with
`location_query_of`. -/
def specJoinNonEmpty (fields : List String) : String :=
  joinCommaSep ((fields.filter (fun f => f ≠ "")) ++ ["India"])

/-- `geocode_location` of map10/preprocessing2.py (the async variant): a
query that strips to the empty string — equivalently, one whose characters
are all whitespace — is rejected before anything else;
otherwise the cache is consulted and then at most one API call is made. The
result carries the success flag the Python function returns; the trailing
counters are the number of cache reads and of API calls performed. -/
def geocode_location2 (api : ApiOutcome) (store : Store) (q : String) :
    (Option ℚ × Option ℚ × Bool) × Store × ℕ × ℕ :=
  if q.data.all Char.isWhitespace then ((none, none, false), store, 0, 0)
  else
    match get_cached_lat_long store q with
    | (some lat, some lon) => ((some lat, some lon, true), store, 1, 0)
    | _ =>
      match api with
      | .results lat lon =>
        ((some lat, some lon, true), cache_lat_long store q lat lon, 1, 1)
      | .empty => ((none, none, false), store, 1, 1)
      | .raises => ((none, none, false), store, 1, 1)

end Map10

namespace Map11

/-- `RATE_LIMIT = 1.5`, the initial retry wait of map11/preprocessing.py. -/
def RATE_LIMIT : ℚ := 3/2

/-- `MAX_PARALLEL_REQUESTS = 5`, the semaphore size. -/
def MAX_PARALLEL_REQUESTS : ℕ := 5

/-- `RETRY_LIMIT = 5`, the number of loop iterations. -/
def RETRY_LIMIT : ℕ := 5

/-- Outcome of one nominatim HTTP request inside
`geocode_location_with_retry`: a JSON body (an empty list becomes `none`),
an HTTPError carrying its status code, or any other exception. -/
inductive Response where
  | ok (data : Option (ℚ × ℚ))
  | httpError (status : ℕ)
  | otherError
deriving Repr, DecidableEq

/-- The `for attempt in range(retries)` loop of `geocode_location_with_retry`
in map11/preprocessing.py. Each iteration re-checks the cache, then issues a
network request; a 429 HTTPError sleeps RATE_LIMIT * 2 ^ attempt and loops, a
different HTTPError or any other exception logs and loops without sleeping,
an empty body loops, and a nonempty body is cached and returned. `geo n` is
the response to the n-th network request of this call; the loop state carries
the remaining iterations, the attempt index, the store, the network-call
count and the backoff sleeps issued so far. -/
def retry_aux (geo : ℕ → Response) (q : String) :
    ℕ → ℕ → Map10.Store → ℕ → List ℚ → Option (ℚ × ℚ) × Map10.Store × ℕ × List ℚ
  | 0, _, store, calls, sleeps => (none, store, calls, sleeps)
  | fuel + 1, att, store, calls, sleeps =>
    match Map10.get_cached_lat_long store q with
    | (some lat, some lon) => (some (lat, lon), store, calls, sleeps)
    | _ =>
      match geo calls with
      | .ok (some (lat, lon)) =>
        (some (lat, lon), Map10.cache_lat_long store q lat lon, calls + 1, sleeps)
      | .ok none => retry_aux geo q fuel (att + 1) store (calls + 1) sleeps
      | .httpError status =>
        if status = 429 then
          retry_aux geo q fuel (att + 1) store (calls + 1)
            (sleeps ++ [RATE_LIMIT * 2 ^ att])
        else retry_aux geo q fuel (att + 1) store (calls + 1) sleeps
      | .otherError => retry_aux geo q fuel (att + 1) store (calls + 1) sleeps

/-- `geocode_location_with_retry` with its default retries = RETRY_LIMIT. -/
def geocode_location_with_retry (geo : ℕ → Response) (store : Map10.Store)
    (q : String) : Option (ℚ × ℚ) × Map10.Store × ℕ × List ℚ :=
  retry_aux geo q RETRY_LIMIT 0 store 0 []

/-- Admission through `with semaphore` (threading.Semaphore of size
MAX_PARALLEL_REQUESTS): a worker arriving while `inFlight` requests hold the
semaphore enters at its arrival instant — and issues its request immediately,
the body performs requests.get with no sleep — iff fewer than
MAX_PARALLEL_REQUESTS are in flight. The semaphore keeps no clock and imposes
no spacing between entries. -/
def sem_enter (inFlight : ℕ) (arrival : ℚ) : Option ℚ :=
  if inFlight < MAX_PARALLEL_REQUESTS then some arrival else none

end Map11

namespace Map13

/-- A police-station feature of INDIA_POLICE_STATIONS.geojson as read by
`match_coordinates` in map13_final/code/feature_update_5.py: the properties
state, district and ps, and the raw geometry coordinate list in GeoJSON order
(longitude first). -/
structure PSFeature where
  state : String
  district : String
  ps : String
  coordinates : List ℚ
deriving Repr, DecidableEq

/-- Python dictionary assignment: overwrite the binding when present. -/
def dictInsert (d : List ((String × String × String) × (ℚ × ℚ)))
    (k : String × String × String) (v : ℚ × ℚ) :
    List ((String × String × String) × (ℚ × ℚ)) :=
  match d with
  | [] => [(k, v)]
  | (k0, v0) :: rest => if k0 = k then (k, v) :: rest else (k0, v0) :: dictInsert rest k v

/-- The body of the first loop of `match_coordinates`: a feature whose
coordinate list holds at least two entries and whose latitude (second entry)
and longitude (first entry) pass the explicit range check is added to the
dictionary; everything else is skipped. -/
def psStep (acc : List ((String × String × String) × (ℚ × ℚ)))
    (f : PSFeature) : List ((String × String × String) × (ℚ × ℚ)) :=
  match f.coordinates with
  | lon :: lat :: _ =>
    if -90 ≤ lat ∧ lat ≤ 90 ∧ -180 ≤ lon ∧ lon ≤ 180 then
      dictInsert acc (f.state, f.district, f.ps) (lat, lon)
    else acc
  | _ => acc

/-- The first loop of `match_coordinates`: builds police_station_coords from
an initially empty dictionary. -/
def police_station_coords (features : List PSFeature) :
    List ((String × String × String) × (ℚ × ℚ)) :=
  features.foldl psStep []

/-- A row of the crime dataframe after `match_coordinates`: pd.NA
coordinates are `none`. -/
structure CrimeRow where
  state : String
  district : String
  station : String
  latitude : Option ℚ
  longitude : Option ℚ
deriving Repr, DecidableEq

/-- The dropna of the Latitude and Longitude columns over the rows matching a
(state, district) pair: the coordinate pairs of the rows of the group having
both coordinates. -/
def district_coords (data : List CrimeRow) (state district : String) :
    List (ℚ × ℚ) :=
  data.filterMap (fun r =>
    if r.state = state ∧ r.district = district then
      match r.latitude, r.longitude with
      | some lat, some lon => some (lat, lon)
      | _, _ => none
    else none)

/-- The same dropna over the rows matching just a state. -/
def state_coords (data : List CrimeRow) (state : String) : List (ℚ × ℚ) :=
  data.filterMap (fun r =>
    if r.state = state then
      match r.latitude, r.longitude with
      | some lat, some lon => some (lat, lon)
      | _, _ => none
    else none)

/-- The pandas mean of a column. -/
def meanQ (xs : List ℚ) : ℚ := xs.sum / xs.length

/-- The pair of in-place assignments to the Latitude and Longitude cells of
row i. -/
def setCoords (data : List CrimeRow) (i : ℕ) (lat lon : ℚ) : List CrimeRow :=
  match data[i]? with
  | some r => data.set i { r with latitude := some lat, longitude := some lon }
  | none => data

/-- One iteration of the `approximate_missing_locations` loop at row i: when
the row misses a coordinate, assign the mean of the district group when that
group has any fully-resolved row, falling back to the mean of the state group,
and leave the row alone when both are empty. The groups are taken over the
current, partly mutated dataframe. -/
def approx_step (data : List CrimeRow) (i : ℕ) : List CrimeRow :=
  match data[i]? with
  | none => data
  | some row =>
    if row.latitude.isNone || row.longitude.isNone then
      let dc := district_coords data row.state row.district
      if dc ≠ [] then
        setCoords data i (meanQ (dc.map Prod.fst)) (meanQ (dc.map Prod.snd))
      else
        let sc := state_coords data row.state
        if sc ≠ [] then
          setCoords data i (meanQ (sc.map Prod.fst)) (meanQ (sc.map Prod.snd))
        else data
    else data

/-- `approximate_missing_locations` of map13_final/code/feature_update_5.py:
the iterrows loop over all row indices, mutating the frame in place, so the
fills of earlier rows are visible to later ones. -/
def approximate_missing_locations (data : List CrimeRow) : List CrimeRow :=
  (List.range data.length).foldl approx_step data

/-- Observable effects of a pipeline stage: an in-memory cell assignment in
the crime dataframe, or a write against the persistent locations store. -/
inductive Effect where
  | dataWrite (i : ℕ) (lat lon : ℚ)
  | storeUpsert (key : String) (e : Map9.Entry)
  | storeDelete (key : String)
deriving Repr, DecidableEq

/-- `approx_step` instrumented with the effects it performs. -/
def approx_step_t (data : List CrimeRow) (i : ℕ) : List CrimeRow × List Effect :=
  match data[i]? with
  | none => (data, [])
  | some row =>
    if row.latitude.isNone || row.longitude.isNone then
      let dc := district_coords data row.state row.district
      if dc ≠ [] then
        let lat := meanQ (dc.map Prod.fst)
        let lon := meanQ (dc.map Prod.snd)
        (setCoords data i lat lon, [.dataWrite i lat lon])
      else
        let sc := state_coords data row.state
        if sc ≠ [] then
          let lat := meanQ (sc.map Prod.fst)
          let lon := meanQ (sc.map Prod.snd)
          (setCoords data i lat lon, [.dataWrite i lat lon])
        else (data, [])
    else (data, [])

/-- One instrumented iteration threading the accumulated effect trace. -/
def approx_acc_t (acc : List CrimeRow × List Effect) (i : ℕ) :
    List CrimeRow × List Effect :=
  let r := approx_step_t acc.1 i
  (r.1, acc.2 ++ r.2)

/-- The instrumented loop, accumulating every effect the stage performs. -/
def approximate_t (data : List CrimeRow) : List CrimeRow × List Effect :=
  (List.range data.length).foldl approx_acc_t (data, [])

/-- Whether an effect touches only the in-memory dataframe. -/
def Effect.isDataWrite : Effect → Bool
  | .dataWrite _ _ _ => true
  | _ => false

/-- How an effect acts on the persistent store: a dataframe write leaves it
alone, the store effects act as SQL would. -/
def applyEffect (store : Map9.Store) (e : Effect) : Map9.Store :=
  match e with
  | .dataWrite _ _ _ => store
  | .storeUpsert k en => Map9.insertOrReplace store k en
  | .storeDelete k => store.filter (fun p => p.1 ≠ k)

end Map13

namespace Map9

/-- The keys of a store are pairwise distinct, as the PRIMARY KEY on
location_hash guarantees for the SQL table. -/
def keysNodup (store : Store) : Prop := (store.map Prod.fst).Nodup

/-- Coordinate-presence invariant of the locations table: every row with the
success flag set stores both coordinates. -/
def coordsPresentInv (store : Store) : Prop :=
  ∀ p ∈ store, p.2.success = true → p.2.latitude.isSome ∧ p.2.longitude.isSome

end Map9

namespace Witness

/-- A successfully geocoded row used by concrete witnesses. -/
def okEntry : Map9.Entry := ⟨"Q", some 5, some 6, 1, 0, true⟩

/-- A failed row (stored NULL coordinates) used by concrete witnesses. -/
def failedEntry : Map9.Entry := ⟨"Q", none, none, 3, 0, false⟩

/-- A warm single-row map9 store. -/
def warmStore : Map9.Store := [("Q", okEntry)]

/-- A map9 store holding one failed row. -/
def coldStore : Map9.Store := [("Q", failedEntry)]

/-- A warm single-row map10 store. -/
def warmStore10 : Map10.Store := [⟨"Q", 5, 6⟩]

/-- A geocoder that never resolves anything. -/
def geoNone : String → Option ℚ × Option ℚ := fun _ => (none, none)

/-- The end-to-end dataframe of the spec scenario: two Mumbai rows of which
only Colaba resolved, and one resolved Pune row. -/
def scenario : List Map13.CrimeRow :=
  [⟨"MH", "Mumbai", "Colaba", some 10, some 20⟩,
   ⟨"MH", "Mumbai", "Unknown", none, none⟩,
   ⟨"MH", "Pune", "Camp", some 30, some 40⟩]

end Witness

namespace Map9

theorem lookup_insertOrReplace_self (store : Store) (key : String) (e : Entry) :
    lookup (insertOrReplace store key e) key = some e := by
  induction store with
  | nil => simp [insertOrReplace, lookup]
  | cons p rest ih =>
    obtain ⟨k, e0⟩ := p
    by_cases h : k = key
    · simp [insertOrReplace, h, lookup]
    · simp [insertOrReplace, h, lookup, ih]

theorem mem_insertOrReplace (store : Store) (key : String) (e : Entry)
    (p : String × Entry) (hp : p ∈ insertOrReplace store key e) :
    p ∈ store ∨ p = (key, e) := by
  induction store with
  | nil => simpa [insertOrReplace] using hp
  | cons q rest ih =>
    obtain ⟨k, e0⟩ := q
    by_cases h : k = key
    · simp only [insertOrReplace, if_pos h, List.mem_cons] at hp
      rcases hp with hp | hp
      · exact Or.inr hp
      · exact Or.inl (List.mem_cons_of_mem _ hp)
    · simp only [insertOrReplace, if_neg h, List.mem_cons] at hp
      rcases hp with hp | hp
      · exact Or.inl (hp ▸ List.mem_cons_self _ _)
      · rcases ih hp with h1 | h1
        · exact Or.inl (List.mem_cons_of_mem _ h1)
        · exact Or.inr h1

theorem lookupSuccess_eq_none_of_not_mem (store : Store) (key : String)
    (h : key ∉ store.map Prod.fst) : lookupSuccess store key = none := by
  induction store with
  | nil => rfl
  | cons p rest ih =>
    obtain ⟨k, e⟩ := p
    simp only [List.map_cons, List.mem_cons, not_or] at h
    have hk : k ≠ key := fun hkk => h.1 hkk.symm
    simp [lookupSuccess, hk, ih h.2]

theorem lookupSuccess_eq_none_of_failed (store : Store) (key : String)
    (e : Entry) (hn : keysNodup store) (hl : lookup store key = some e)
    (hs : e.success = false) : lookupSuccess store key = none := by
  induction store with
  | nil => simp [lookup] at hl
  | cons p rest ih =>
    obtain ⟨k, e0⟩ := p
    simp only [keysNodup, List.map_cons, List.nodup_cons] at hn
    by_cases h : k = key
    · simp only [lookup, if_pos h] at hl
      have he : e0 = e := by injection hl
      subst he
      have : ¬ (k = key ∧ e0.success = true) := by
        intro hc
        rw [hs] at hc
        exact Bool.false_ne_true hc.2
      simp only [lookupSuccess, if_neg this]
      exact lookupSuccess_eq_none_of_not_mem rest key (h ▸ hn.1)
    · simp only [lookup, if_neg h] at hl
      have : ¬ (k = key ∧ e0.success = true) := fun hc => h hc.1
      simp only [lookupSuccess, if_neg this]
      exact ih hn.2 hl

theorem rate_limit_release_ge (last arrival : ℚ) :
    last + min_request_interval ≤ rate_limit_release last arrival := by
  unfold rate_limit_release
  split
  · linarith
  · linarith [le_of_not_lt (by assumption : ¬ arrival - last < min_request_interval)]

theorem gate_releases_chain (last : ℚ) (arrivals : List ℚ) :
    List.Chain' (fun x y => x + min_request_interval ≤ y)
      (gate_releases last arrivals) := by
  induction arrivals generalizing last with
  | nil => simp [gate_releases]
  | cons a rest ih =>
    cases rest with
    | nil => simp [gate_releases]
    | cons b rest2 =>
      simp only [gate_releases]
      rw [List.chain'_cons]
      exact ⟨rate_limit_release_ge _ _, ih (rate_limit_release last a)⟩

end Map9

namespace Map13

theorem mem_dictInsert (d : List ((String × String × String) × (ℚ × ℚ)))
    (k : String × String × String) (v : ℚ × ℚ)
    (p : (String × String × String) × (ℚ × ℚ)) (hp : p ∈ dictInsert d k v) :
    p ∈ d ∨ p = (k, v) := by
  induction d with
  | nil => simpa [dictInsert] using hp
  | cons q rest ih =>
    obtain ⟨k0, v0⟩ := q
    by_cases h : k0 = k
    · simp only [dictInsert, if_pos h, List.mem_cons] at hp
      rcases hp with hp | hp
      · exact Or.inr hp
      · exact Or.inl (List.mem_cons_of_mem _ hp)
    · simp only [dictInsert, if_neg h, List.mem_cons] at hp
      rcases hp with hp | hp
      · exact Or.inl (hp ▸ List.mem_cons_self _ _)
      · rcases ih hp with h1 | h1
        · exact Or.inl (List.mem_cons_of_mem _ h1)
        · exact Or.inr h1

/-- The range predicate of match_coordinates. -/
def inRange (v : ℚ × ℚ) : Prop :=
  -90 ≤ v.1 ∧ v.1 ≤ 90 ∧ -180 ≤ v.2 ∧ v.2 ≤ 180

theorem psStep_range (acc : List ((String × String × String) × (ℚ × ℚ)))
    (f : PSFeature) (hacc : ∀ p ∈ acc, inRange p.2) :
    ∀ p ∈ psStep acc f, inRange p.2 := by
  intro p hp
  unfold psStep at hp
  split at hp
  · split at hp
    · rename_i hr
      rcases mem_dictInsert _ _ _ p hp with hmem | heq
      · exact hacc p hmem
      · rw [heq]; exact hr
    · exact hacc p hp
  · exact hacc p hp

theorem foldl_psStep_range (features : List PSFeature)
    (acc : List ((String × String × String) × (ℚ × ℚ)))
    (hacc : ∀ p ∈ acc, inRange p.2) :
    ∀ p ∈ features.foldl psStep acc, inRange p.2 := by
  induction features generalizing acc with
  | nil => simpa using hacc
  | cons f rest ih =>
    intro p hp
    exact ih (psStep acc f) (psStep_range acc f hacc) p hp

theorem approx_step_t_fst (data : List CrimeRow) (i : ℕ) :
    (approx_step_t data i).1 = approx_step data i := by
  unfold approx_step_t approx_step
  rcases data[i]? with _ | row
  · rfl
  · by_cases h1 : (row.latitude.isNone || row.longitude.isNone) = true
    · simp only [h1, if_true]
      by_cases h2 : district_coords data row.state row.district ≠ []
      · rw [if_pos h2, if_pos h2]
      · rw [if_neg h2, if_neg h2]
        by_cases h3 : state_coords data row.state ≠ []
        · rw [if_pos h3, if_pos h3]
        · rw [if_neg h3, if_neg h3]
    · simp only [h1]
      rw [if_neg, if_neg] <;> simp [h1]

theorem approx_step_t_effects (data : List CrimeRow) (i : ℕ) :
    ((approx_step_t data i).2.all Effect.isDataWrite) = true := by
  unfold approx_step_t
  rcases data[i]? with _ | row
  · rfl
  · by_cases h1 : (row.latitude.isNone || row.longitude.isNone) = true
    · simp only [h1, if_true]
      by_cases h2 : district_coords data row.state row.district ≠ []
      · rw [if_pos h2]; rfl
      · rw [if_neg h2]
        by_cases h3 : state_coords data row.state ≠ []
        · rw [if_pos h3]; rfl
        · rw [if_neg h3]; rfl
    · simp only [h1]
      rw [if_neg] <;> simp [h1]

theorem foldl_approx_acc_t (idxs : List ℕ) (data : List CrimeRow)
    (effs : List Effect) :
    (idxs.foldl approx_acc_t (data, effs)).1 = idxs.foldl approx_step data ∧
    (idxs.foldl approx_acc_t (data, effs)).2 =
      effs ++ (idxs.foldl approx_acc_t (data, [])).2 ∧
    (effs.all Effect.isDataWrite = true →
      ((idxs.foldl approx_acc_t (data, effs)).2.all Effect.isDataWrite) = true) := by
  induction idxs generalizing data effs with
  | nil => simp
  | cons i rest ih =>
    simp only [List.foldl_cons]
    have hstep : approx_acc_t (data, effs) i =
        ((approx_step_t data i).1, effs ++ (approx_step_t data i).2) := rfl
    have hstep0 : approx_acc_t (data, []) i =
        ((approx_step_t data i).1, [] ++ (approx_step_t data i).2) := rfl
    rw [hstep, hstep0]
    refine ⟨?_, ?_, ?_⟩
    · rw [(ih _ _).1, approx_step_t_fst]
    · rw [(ih (approx_step_t data i).1 (effs ++ (approx_step_t data i).2)).2.1,
        (ih (approx_step_t data i).1 ([] ++ (approx_step_t data i).2)).2.1,
        List.nil_append, List.append_assoc]
    · intro he
      refine (ih _ _).2.2 ?_
      rw [List.all_append]
      simp [he, approx_step_t_effects data i]

theorem foldl_applyEffect_of_dataWrites (trace : List Effect)
    (ht : trace.all Effect.isDataWrite = true) (store : Map9.Store) :
    trace.foldl applyEffect store = store := by
  induction trace generalizing store with
  | nil => rfl
  | cons e rest ih =>
    rw [List.all_cons, Bool.and_eq_true] at ht
    cases e with
    | dataWrite i lat lon => exact ih ht.2 store
    | storeUpsert k en => simp [Effect.isDataWrite] at ht
    | storeDelete k => simp [Effect.isDataWrite] at ht

end Map13

/-- Claim C1: a location query that already has a successful entry in the
persistent cache (success = 1 under its hash) is answered from the cache.
The map9 resolution step returns immediately with the store untouched and
zero calls to the geocoding client; the map10 resolution step returns the
cached coordinates with zero calls; and a batch run in which every query is
successfully cached issues zero network calls in total and leaves the store
unchanged — re-running the pipeline on an unchanged dataset with a warm
cache performs no additional network calls. -/
theorem warm_cache_hit_no_network :
    (∀ (md5 : String → String) (geo : String → Option ℚ × Option ℚ) (now : ℚ)
      (store : Map9.Store) (loc : String) (e : Map9.Entry),
      Map9.lookupSuccess store (md5 loc) = some e →
      Map9.process_location md5 geo now store loc = (true, store, 0))
  ∧ (∀ (api : Map10.ApiOutcome) (store : Map10.Store) (q : String) (lat lon : ℚ),
      Map10.get_cached_lat_long store q = (some lat, some lon) →
      Map10.geocode_location api store q = ((some lat, some lon), store, 0))
  ∧ (∀ (md5 : String → String) (geo : String → Option ℚ × Option ℚ) (now : ℚ)
      (store : Map9.Store) (locs : List String),
      (∀ loc ∈ locs, ∃ e, Map9.lookupSuccess store (md5 loc) = some e) →
      Map9.process_batch md5 geo now store locs = (store, 0)) := by
  refine ⟨?_, ?_, ?_⟩
  · intro md5 geo now store loc e h
    simp [Map9.process_location, h]
  · intro api store q lat lon h
    simp [Map10.geocode_location, h]
  · intro md5 geo now store locs h
    induction locs with
    | nil => rfl
    | cons loc rest ih =>
      obtain ⟨e, he⟩ := h loc (List.mem_cons_self _ _)
      simp [Map9.process_batch, Map9.process_location, he,
        ih (fun l hl => h l (List.mem_cons_of_mem _ hl))]

/-- Witness for C1 at a concrete warm store and query. -/
theorem warm_cache_hit_no_network_witness :
    Map9.process_location id Witness.geoNone 0 Witness.warmStore "Q"
      = (true, Witness.warmStore, 0)
  ∧ Map10.geocode_location .raises Witness.warmStore10 "Q"
      = ((some 5, some 6), Witness.warmStore10, 0)
  ∧ Map9.process_batch id Witness.geoNone 0 Witness.warmStore ["Q", "Q"]
      = (Witness.warmStore, 0) :=
  ⟨warm_cache_hit_no_network.1 id Witness.geoNone 0 _ "Q" Witness.okEntry (by decide),
   warm_cache_hit_no_network.2.1 .raises _ "Q" 5 6 (by decide),
   warm_cache_hit_no_network.2.2 id Witness.geoNone 0 _ ["Q", "Q"] (by
     intro loc hl
     have hq : loc = "Q" := by
       rcases List.mem_cons.mp hl with h | h
       · exact h
       · simpa using h
     exact ⟨Witness.okEntry, by rw [hq]; decide⟩)⟩

/-- Counterexample to claim C2 as stated: in the map11 variant the only gate
is the semaphore, which admits a second worker while another request is in
flight at the very same instant — two consecutive outgoing requests with
separation 0, below the map9 minimum interval and below the map11
RATE_LIMIT. The claimed universal minimum spacing therefore fails for the
map11 execution in which two workers arrive at time 0. -/
theorem rate_limit_global_gate_counterexample :
    Map11.sem_enter 0 0 = some 0 ∧ Map11.sem_enter 1 0 = some 0 ∧
    ¬ (Map9.min_request_interval ≤ 0 - 0) ∧ ¬ (Map11.RATE_LIMIT ≤ 0 - 0) := by
  refine ⟨rfl, rfl, ?_, ?_⟩ <;>
    norm_num [Map9.min_request_interval, Map11.RATE_LIMIT]

/-- Claim C2 amended: the map9 HereGeocoder throttle is a single
process-wide gate — for any initial timestamp and any serialized sequence of
gate passages (any number of workers), consecutive gate releases, hence
consecutive outgoing requests, are at least min_request_interval apart. The
map11 variant enforces no such interval: its semaphore admits a fifth
simultaneous in-flight request with zero spacing and blocks only a sixth. -/
theorem rate_gate_process_wide_spacing :
    (∀ (last : ℚ) (arrivals : List ℚ),
      List.Chain' (fun x y => x + Map9.min_request_interval ≤ y)
        (Map9.gate_releases last arrivals))
  ∧ Map11.sem_enter 4 0 = some 0 ∧ Map11.sem_enter 5 0 = none :=
  ⟨Map9.gate_releases_chain, rfl, rfl⟩

/-- Counterexample to claim C3 as stated: `process_location` stores whatever
the geocoder returned without any range validation, so a geocoder response
of (1000, 2000) yields a persistent entry with success = true whose latitude
lies outside [-90, 90]. -/
theorem coordinate_validity_counterexample :
    (Map9.process_location id (fun _ => (some 1000, some 2000)) 0 [] "X").2.1
      = [("X", ⟨"X", some 1000, some 2000, 1, 0, true⟩)]
    ∧ ¬ ((1000 : ℚ) ≤ 90) := by
  exact ⟨by decide, by norm_num⟩

/-- Claim C3 amended: success = true implies latitude and longitude are both
present — the writer sets the flag exactly when both coordinates came back —
and this presence invariant is preserved by every map9 resolution step; the
range check latitude ∈ [-90, 90], longitude ∈ [-180, 180] is enforced only
by match_coordinates on the geojson side, whose coordinate dictionary
contains in-range values only. The cache writer itself never validates
ranges. -/
theorem success_implies_coords_present :
    (∀ (md5 : String → String) (geo : String → Option ℚ × Option ℚ) (now : ℚ)
      (store : Map9.Store) (loc : String),
      Map9.coordsPresentInv store →
      Map9.coordsPresentInv (Map9.process_location md5 geo now store loc).2.1)
  ∧ (∀ (features : List Map13.PSFeature)
      (p : (String × String × String) × (ℚ × ℚ)),
      p ∈ Map13.police_station_coords features →
      -90 ≤ p.2.1 ∧ p.2.1 ≤ 90 ∧ -180 ≤ p.2.2 ∧ p.2.2 ≤ 180) := by
  constructor
  · intro md5 geo now store loc hinv
    cases h : Map9.lookupSuccess store (md5 loc) with
    | some e =>
      simp only [Map9.process_location, h]
      exact hinv
    | none =>
      simp only [Map9.process_location, h]
      intro p hp hsucc
      rcases Map9.mem_insertOrReplace _ _ _ p hp with hmem | heq
      · exact hinv p hmem hsucc
      · rw [heq] at hsucc ⊢
        simp only [Bool.and_eq_true] at hsucc
        exact hsucc
  · intro features p hp
    exact Map13.foldl_psStep_range features [] (by simp) p hp

/-- Witness for C3 (amended) at a concrete store, geocoder and feature
list. -/
theorem success_implies_coords_present_witness :
    Map9.coordsPresentInv
      (Map9.process_location id Witness.geoNone 0 Witness.coldStore "Q").2.1
  ∧ (-90 ≤ (10 : ℚ) ∧ (10 : ℚ) ≤ 90 ∧ -180 ≤ (20 : ℚ) ∧ (20 : ℚ) ≤ 180) :=
  ⟨success_implies_coords_present.1 id Witness.geoNone 0 Witness.coldStore "Q"
    (by
      intro p hp hs
      have : p = ("Q", Witness.failedEntry) := by simpa [Witness.coldStore] using hp
      rw [this] at hs
      exact absurd hs (by decide)),
   success_implies_coords_present.2 [⟨"MH", "Mumbai", "Colaba", [20, 10]⟩]
    (("MH", "Mumbai", "Colaba"), (10, 20)) (by decide)⟩

/-- Claim C4: when a record misses a coordinate but some other record of the
same (state, district) group is fully resolved in the current frame, the
approximation step assigns the arithmetic mean of the latitudes and the mean
of the longitudes of the resolved district group — a group that cannot
contain the record itself, since that record lacks a coordinate — and not
the state means; the state means are used only when the district group has
no resolved row at all. -/
theorem district_fallback_before_state :
    (∀ (data : List Map13.CrimeRow) (i : ℕ) (row : Map13.CrimeRow),
      data[i]? = some row →
      (row.latitude = none ∨ row.longitude = none) →
      (∃ j r, j ≠ i ∧ data[j]? = some r ∧ r.state = row.state ∧
        r.district = row.district ∧ r.latitude.isSome = true ∧
        r.longitude.isSome = true) →
      Map13.approx_step data i =
        Map13.setCoords data i
          (Map13.meanQ
            ((Map13.district_coords data row.state row.district).map Prod.fst))
          (Map13.meanQ
            ((Map13.district_coords data row.state row.district).map Prod.snd)))
  ∧ (∀ (data : List Map13.CrimeRow) (i : ℕ) (row : Map13.CrimeRow),
      data[i]? = some row →
      (row.latitude = none ∨ row.longitude = none) →
      Map13.district_coords data row.state row.district = [] →
      Map13.state_coords data row.state ≠ [] →
      Map13.approx_step data i =
        Map13.setCoords data i
          (Map13.meanQ ((Map13.state_coords data row.state).map Prod.fst))
          (Map13.meanQ ((Map13.state_coords data row.state).map Prod.snd))) := by
  constructor
  · intro data i row hrow hmiss hsib
    obtain ⟨j, r, hji, hjr, hs, hd, hlat, hlon⟩ := hsib
    obtain ⟨rlat, hrl⟩ := Option.isSome_iff_exists.mp hlat
    obtain ⟨rlon, hro⟩ := Option.isSome_iff_exists.mp hlon
    have hrmem : r ∈ data := List.mem_iff_getElem?.mpr ⟨j, hjr⟩
    have hdc : (rlat, rlon) ∈ Map13.district_coords data row.state row.district := by
      refine List.mem_filterMap.mpr ⟨r, hrmem, ?_⟩
      simp [hs, hd, hrl, hro]
    have hne : Map13.district_coords data row.state row.district ≠ [] :=
      List.ne_nil_of_mem hdc
    have hcond : (row.latitude.isNone || row.longitude.isNone) = true := by
      rcases hmiss with h | h <;> simp [h]
    simp only [Map13.approx_step, hrow, hcond, if_true]
    rw [if_pos hne]
  · intro data i row hrow hmiss hdc hsc
    have hcond : (row.latitude.isNone || row.longitude.isNone) = true := by
      rcases hmiss with h | h <;> simp [h]
    simp only [Map13.approx_step, hrow, hcond, if_true]
    rw [if_neg (by simp [hdc]), if_pos hsc]

/-- Witness for C4 at the spec scenario: the unresolved Mumbai record is
assigned the Mumbai district group mean (built from Colaba alone), not the
state mean that would also average in Pune. -/
theorem district_fallback_before_state_witness :
    Map13.approx_step Witness.scenario 1 =
      Map13.setCoords Witness.scenario 1
        (Map13.meanQ
          ((Map13.district_coords Witness.scenario "MH" "Mumbai").map Prod.fst))
        (Map13.meanQ
          ((Map13.district_coords Witness.scenario "MH" "Mumbai").map Prod.snd)) :=
  district_fallback_before_state.1 Witness.scenario 1
    ⟨"MH", "Mumbai", "Unknown", none, none⟩ (by decide) (Or.inl rfl)
    ⟨0, ⟨"MH", "Mumbai", "Colaba", some 10, some 20⟩,
      by decide, by decide, rfl, rfl, rfl, rfl⟩

/-- Claim C5: with the cache missing the query and the service answering 429
on every request, `geocode_location_with_retry` performs exactly RETRY_LIMIT
(five) attempts, sleeping RATE_LIMIT * 2 ^ attempt after the attempt with
that index (hence before the next one), then gives up with (None, None) and
an unchanged store — no successful entry is recorded, so a future run on the
returned store issues its five network attempts again (the query remains
retryable). -/
theorem backoff_on_rate_limit :
    (∀ (store : Map10.Store) (q : String),
      Map10.get_cached_lat_long store q = (none, none) →
      Map11.geocode_location_with_retry (fun _ => .httpError 429) store q =
        (none, store, Map11.RETRY_LIMIT,
          (List.range Map11.RETRY_LIMIT).map
            (fun a => Map11.RATE_LIMIT * 2 ^ a)))
  ∧ (∀ (store : Map10.Store) (q : String),
      Map10.get_cached_lat_long store q = (none, none) →
      (Map11.geocode_location_with_retry (fun _ => .httpError 429)
        (Map11.geocode_location_with_retry
          (fun _ => .httpError 429) store q).2.1 q).2.2.1
        = Map11.RETRY_LIMIT) := by
  have key : ∀ (store : Map10.Store) (q : String),
      Map10.get_cached_lat_long store q = (none, none) →
      Map11.geocode_location_with_retry
          (fun _ => Map11.Response.httpError 429) store q =
        (none, store, Map11.RETRY_LIMIT,
          (List.range Map11.RETRY_LIMIT).map
            (fun a => Map11.RATE_LIMIT * 2 ^ a)) := by
    intro store q h
    simp [Map11.geocode_location_with_retry, Map11.RETRY_LIMIT,
      Map11.retry_aux, h, List.range_succ]
  refine ⟨key, ?_⟩
  intro store q h
  rw [key store q h]
  rw [key store q h]

/-- Witness for C5 at the empty store. -/
theorem backoff_on_rate_limit_witness :
    Map11.geocode_location_with_retry (fun _ => .httpError 429) [] "Q" =
      (none, [], Map11.RETRY_LIMIT,
        (List.range Map11.RETRY_LIMIT).map (fun a => Map11.RATE_LIMIT * 2 ^ a))
  ∧ (Map11.geocode_location_with_retry (fun _ => .httpError 429)
      (Map11.geocode_location_with_retry
        (fun _ => .httpError 429) [] "Q").2.1 "Q").2.2.1 = Map11.RETRY_LIMIT :=
  ⟨backoff_on_rate_limit.1 [] "Q" rfl, backoff_on_rate_limit.2 [] "Q" rfl⟩

/-- Counterexample to claim C6 as stated: in map11, a transport error other
than a 429 does not stop the loop — with the service timing out on every
request, `geocode_location_with_retry` issues five network attempts, not
one, before failing. -/
theorem transport_error_counterexample :
    (Map11.geocode_location_with_retry (fun _ => .otherError) [] "Q").2.2.1 = 5
    ∧ ¬ ((Map11.geocode_location_with_retry
        (fun _ => .otherError) [] "Q").2.2.1 = 1) := by
  exact ⟨by decide, by decide⟩

/-- Claim C6 amended: in map8, `GeocodingService.geocode` always completes
in a single attempt — the inner try/except swallows every exception before
the backoff decorator can see it — returning the body's value and logging
exactly when the body caught an error, without raising toward the batch; in
map11, a non-429 transport error skips the backoff sleep but the loop still
proceeds, consuming the full five-attempt budget before returning
(None, None) with the store unchanged and no sleeps issued. -/
theorem transport_error_single_attempt :
    (∀ os : ℕ → Map8.NominatimOutcome,
      Map8.geocode os =
        ((Map8.geocode_body (os 0)).1, 1, (Map8.geocode_body (os 0)).2))
  ∧ (∀ (store : Map10.Store) (q : String),
      Map10.get_cached_lat_long store q = (none, none) →
      Map11.geocode_location_with_retry (fun _ => .otherError) store q =
        (none, store, Map11.RETRY_LIMIT, [])) := by
  constructor
  · intro os
    cases h : os 0 with
    | found lat lon => simp [Map8.geocode, Map8.backoff_run, Map8.geocode_body, h]
    | notFound => simp [Map8.geocode, Map8.backoff_run, Map8.geocode_body, h]
    | raises => simp [Map8.geocode, Map8.backoff_run, Map8.geocode_body, h]
  · intro store q h
    simp [Map11.geocode_location_with_retry, Map11.RETRY_LIMIT,
      Map11.retry_aux, h]

/-- Witness for C6 (amended): a raising nominatim call completes in one
logged attempt, and the always-timing-out map11 call exhausts its budget on
the empty store. -/
theorem transport_error_single_attempt_witness :
    Map8.geocode (fun _ => .raises) = (.ok (none, none), 1, true)
  ∧ Map11.geocode_location_with_retry (fun _ => .otherError) [] "Q" =
      (none, [], Map11.RETRY_LIMIT, []) :=
  ⟨transport_error_single_attempt.1 (fun _ => .raises),
   transport_error_single_attempt.2 [] "Q" rfl⟩

/-- Claim C7: a resolution attempt on a query with no successful cache entry
upserts the store under the query's hash — the row comes back with the
location string, the fresh coordinates and success flag of this attempt,
last_attempt set to now, and attempts equal to one when no row existed and
to the previous count plus one otherwise; in particular a failed attempt
(geocoder returning no coordinates) is recorded as a row with success =
false rather than left absent. -/
theorem upsert_records_every_attempt :
    ∀ (md5 : String → String) (geo : String → Option ℚ × Option ℚ) (now : ℚ)
      (store : Map9.Store) (loc : String),
      Map9.lookupSuccess store (md5 loc) = none →
      Map9.lookup (Map9.process_location md5 geo now store loc).2.1 (md5 loc) =
        some ⟨loc, (geo loc).1, (geo loc).2,
          (match Map9.lookup store (md5 loc) with
            | some e => e.att + 1
            | none => 1),
          now, (geo loc).1.isSome && (geo loc).2.isSome⟩ := by
  intro md5 geo now store loc h
  simp only [Map9.process_location, h]
  exact Map9.lookup_insertOrReplace_self _ _ _

/-- Witness for C7 at a store holding a failed row with three attempts: the
failed re-attempt is recorded with attempts bumped to four and success still
false. -/
theorem upsert_records_every_attempt_witness :
    Map9.lookup
      (Map9.process_location id Witness.geoNone 0 Witness.coldStore "Q").2.1 "Q"
      = some ⟨"Q", none, none, 4, 0, false⟩ := by
  have h := upsert_records_every_attempt id Witness.geoNone 0 Witness.coldStore "Q"
    (by decide)
  exact h

/-- Counterexample to claim C8 as stated: the map10/map11 builder joins all
three fields unconditionally, so a missing police station produces a query
with a dangling leading separator instead of the join of the non-empty
fields; and the synchronous map10 `geocode_location` submits even the empty
query to the geocoder (one network call) instead of rejecting it. -/
theorem key_builder_counterexample :
    Map10.location_query_of none (some "Mumbai") (some "Maharashtra")
      = ", Mumbai, Maharashtra, India"
    ∧ Map10.location_query_of none (some "Mumbai") (some "Maharashtra")
      ≠ Map10.specJoinNonEmpty ["", "Mumbai", "Maharashtra"]
    ∧ (Map10.geocode_location .empty [] "").2.2 = 1 := by
  refine ⟨rfl, by decide, rfl⟩

/-- Claim C8 amended: only the async variant (map10/preprocessing2.py)
rejects a query that strips to the empty string, and it does so before any
cache or network access — zero cache reads, zero API calls, failure result,
store untouched; the builder of map10/map11 joins all three fields
unconditionally, so it agrees with the spec's join of non-empty fields
exactly when every field is non-empty (empty fields leave dangling
separators, as the counterexample shows). -/
theorem empty_query_rejected_only_async :
    (∀ (api : Map10.ApiOutcome) (store : Map10.Store) (q : String),
      q.data.all Char.isWhitespace = true →
      Map10.geocode_location2 api store q = ((none, none, false), store, 0, 0))
  ∧ (∀ ps d s : String, ps ≠ "" → d ≠ "" → s ≠ "" →
      Map10.location_query_of (some ps) (some d) (some s) =
        Map10.specJoinNonEmpty [ps, d, s]) := by
  constructor
  · intro api store q h
    simp [Map10.geocode_location2, h]
  · intro ps d s hps hd hs
    simp only [Map10.specJoinNonEmpty, List.filter, hps, hd, hs, decide_not,
      decide_eq_true_eq, if_pos, List.append_eq]
    simp only [Map10.location_query_of, Map10.fillna, Option.getD_some,
      Map10.joinCommaSep]
    have hlit : (", " : String) ++ "India" = ", India" := rfl
    rw [← hlit]
    simp [String.append_assoc]

/-- Witness for C8 (amended): a whitespace-only query is rejected with no
cache read and no API call, and the three-field join on non-empty fields
matches the spec join. -/
theorem empty_query_rejected_only_async_witness :
    Map10.geocode_location2 (Map10.ApiOutcome.results 1 2) [] "  " =
      ((none, none, false), [], 0, 0)
  ∧ Map10.location_query_of (some "Colaba") (some "Mumbai") (some "MH") =
      Map10.specJoinNonEmpty ["Colaba", "Mumbai", "MH"] :=
  ⟨empty_query_rejected_only_async.1 (Map10.ApiOutcome.results 1 2) [] "  "
      (by decide),
   empty_query_rejected_only_async.2 "Colaba" "Mumbai" "MH"
      (by decide) (by decide) (by decide)⟩

/-- Claim C9: hierarchical approximation is a pure in-memory derivation. The
instrumented run agrees with the plain run, every effect it emits is a
dataframe cell write (no store upsert and no store delete ever occurs), and
replaying its full effect trace against any persistent store — in
particular one holding the original failed entry — returns that store
exactly as it was. -/
theorem approximation_never_writes_store :
    ∀ (data : List Map13.CrimeRow),
      (Map13.approximate_t data).1 = Map13.approximate_missing_locations data
    ∧ ((Map13.approximate_t data).2.all Map13.Effect.isDataWrite) = true
    ∧ ∀ store : Map9.Store,
        (Map13.approximate_t data).2.foldl Map13.applyEffect store = store := by
  intro data
  have h := Map13.foldl_approx_acc_t (List.range data.length) data []
  refine ⟨h.1, h.2.2 rfl, ?_⟩
  intro store
  exact Map13.foldl_applyEffect_of_dataWrites _ (h.2.2 rfl) store

/-- Claim C10: the render-side lookup of map8 returns the stored coordinate
pair of any row whose hash matches, regardless of the success flag — a
failed row yields its stored NULL coordinates rather than being treated as
absent — and returns (None, None) when no row exists; the map9 variant, by
contrast, filters on success = 1, so under the PRIMARY-KEY uniqueness of
the hash a matching failed row produces (None, None). Both embeddings are
total functions: no call raises toward the caller. -/
theorem render_lookup_ignores_success :
    (∀ (md5 : String → String) (store : Map9.Store) (loc : String)
      (e : Map9.Entry), Map9.lookup store (md5 loc) = some e →
      Map8.get_cached_coordinates md5 store loc = (e.latitude, e.longitude))
  ∧ (∀ (md5 : String → String) (store : Map9.Store) (loc : String),
      Map9.lookup store (md5 loc) = none →
      Map8.get_cached_coordinates md5 store loc = (none, none))
  ∧ (∀ (md5 : String → String) (store : Map9.Store) (loc : String)
      (e : Map9.Entry), Map9.keysNodup store →
      Map9.lookup store (md5 loc) = some e → e.success = false →
      Map9.get_coordinates md5 store loc = (none, none)) := by
  refine ⟨?_, ?_, ?_⟩
  · intro md5 store loc e h
    simp [Map8.get_cached_coordinates, h]
  · intro md5 store loc h
    simp [Map8.get_cached_coordinates, h]
  · intro md5 store loc e hn h hs
    simp [Map9.get_coordinates,
      Map9.lookupSuccess_eq_none_of_failed store (md5 loc) e hn h hs]

/-- Witness for C10 at a store holding one failed row with NULL
coordinates. -/
theorem render_lookup_ignores_success_witness :
    Map8.get_cached_coordinates id Witness.coldStore "Q" = (none, none)
  ∧ Map8.get_cached_coordinates id [] "Q" = (none, none)
  ∧ Map9.get_coordinates id Witness.coldStore "Q" = (none, none) :=
  ⟨render_lookup_ignores_success.1 id Witness.coldStore "Q" Witness.failedEntry
      (by decide),
   render_lookup_ignores_success.2.1 id [] "Q" rfl,
   render_lookup_ignores_success.2.2 id Witness.coldStore "Q"
      Witness.failedEntry (by simp [Map9.keysNodup, Witness.coldStore])
      (by decide) rfl⟩
